import Mathlib

/-!
Verification of the MCP hub's service registry, router and load balancer
(`src/mcp-hub/src/registry.py`, `src/mcp-hub/src/router.py`,
`src/mcp-hub/main.py`), shallowly embedded in Lean.

Python dicts are modelled as association lists in insertion order;
timestamps (`time.time()` floats) are modelled as integers, which is
faithful for every ordering comparison the code makes.
-/

/-- `ServiceStatus` enum from registry.py. -/
inductive ServiceStatus where
  | healthy
  | unhealthy
  | unknown
deriving DecidableEq, Repr

/-- `ServiceInfo` dataclass from registry.py.  `last_heartbeat` is set by
`__post_init__` to `time.time()` at construction; callers of the constructor
in this embedding pass that clock value explicitly. -/
structure ServiceInfo where
  name : String
  host : String
  port : Nat
  capabilities : List String
  status : ServiceStatus := ServiceStatus.unknown
  last_heartbeat : Int := 0
  metadata : List (String × String) := []
deriving DecidableEq, Repr

/-- Lookup in an insertion-ordered dict modelled as an association list. -/
def dictGet {α : Type} (d : List (String × α)) (k : String) : Option α :=
  match d with
  | [] => none
  | p :: rest => if p.1 = k then some p.2 else dictGet rest k

/-- Lookup with a default, modelling Python `d.get(k, v)`. -/
def dictGetD {α : Type} (d : List (String × α)) (k : String) (v : α) : α :=
  (dictGet d k).getD v

/-- Python `d[k] = v`: replace in place when the key is present (a dict keeps
the key's original position), append otherwise. -/
def dictSet {α : Type} (d : List (String × α)) (k : String) (v : α) :
    List (String × α) :=
  match d with
  | [] => [(k, v)]
  | p :: rest =>
      if p.1 = k then (k, v) :: rest else p :: dictSet rest k v

/-- Python `del d[k]` on a dict (keys are unique, so filtering every match
coincides with deleting the one entry). -/
def dictDel {α : Type} (d : List (String × α)) (k : String) :
    List (String × α) :=
  d.filter (fun p => p.1 ≠ k)

/-- `ServiceRegistry` from registry.py: the `services` dict plus the two
configured intervals.  The background-task handle is not part of the data
the claims are about. -/
structure ServiceRegistry where
  services : List (String × ServiceInfo) := []
  heartbeat_interval : Int := 30
  health_check_interval : Int := 10
deriving Repr

namespace ServiceRegistry

/-- `ServiceRegistry.register`: `self.services[service.name] = service`,
returning `True` (the `except` branch is unreachable for a dict store). -/
def register (reg : ServiceRegistry) (service : ServiceInfo) :
    ServiceRegistry × Bool :=
  ({ reg with services := dictSet reg.services service.name service }, true)

/-- `ServiceRegistry.deregister`: delete the entry when present and return
whether it was found. -/
def deregister (reg : ServiceRegistry) (service_name : String) :
    ServiceRegistry × Bool :=
  if (dictGet reg.services service_name).isSome then
    ({ reg with services := dictDel reg.services service_name }, true)
  else
    (reg, false)

/-- `ServiceRegistry.update_heartbeat`: when the name is present, set its
`last_heartbeat` to now and its status to HEALTHY; report found/not-found. -/
def update_heartbeat (reg : ServiceRegistry) (service_name : String)
    (now : Int) : ServiceRegistry × Bool :=
  if (dictGet reg.services service_name).isSome then
    ({ reg with
        services := reg.services.map (fun p =>
          if p.1 = service_name then
            (p.1, { p.2 with last_heartbeat := now,
                             status := ServiceStatus.healthy })
          else p) }, true)
  else
    (reg, false)

/-- `ServiceRegistry.get_service`. -/
def get_service (reg : ServiceRegistry) (service_name : String) :
    Option ServiceInfo :=
  dictGet reg.services service_name

/-- `ServiceRegistry.get_services_by_capability`: values in dict order whose
capability list contains the capability and whose status is HEALTHY. -/
def get_services_by_capability (reg : ServiceRegistry) (capability : String) :
    List ServiceInfo :=
  (reg.services.map Prod.snd).filter (fun s =>
    capability ∈ s.capabilities ∧ s.status = ServiceStatus.healthy)

/-- `ServiceRegistry.get_healthy_services`. -/
def get_healthy_services (reg : ServiceRegistry) : List ServiceInfo :=
  (reg.services.map Prod.snd).filter (fun s =>
    s.status = ServiceStatus.healthy)

/-- One classification of `_monitor_health`'s loop body for a single entry:
`elapsed > 2*interval` gives UNHEALTHY, else `elapsed > interval` gives
UNKNOWN, else the status is left as it was. -/
def classifyStatus (heartbeat_interval : Int) (elapsed : Int)
    (current : ServiceStatus) : ServiceStatus :=
  if elapsed > heartbeat_interval * 2 then ServiceStatus.unhealthy
  else if elapsed > heartbeat_interval then ServiceStatus.unknown
  else current

/-- One cycle of `_monitor_health`: reclassify every entry by the age of its
heartbeat against the configured interval. -/
def monitor_health_cycle (reg : ServiceRegistry) (now : Int) :
    ServiceRegistry :=
  { reg with
      services := reg.services.map (fun p =>
        (p.1, { p.2 with
                  status := classifyStatus reg.heartbeat_interval
                    (now - p.2.last_heartbeat) p.2.status })) }

end ServiceRegistry

/-- `RouteRequest` dataclass from router.py. -/
structure RouteRequest where
  method : String
  params : List (String × String) := []
  capability : Option String := none
  target_service : Option String := none
  request_id : Option String := none
deriving DecidableEq, Repr

/-- `RouteResponse` dataclass from router.py. -/
structure RouteResponse where
  success : Bool
  data : Option String := none
  error : Option String := none
  service_name : Option String := none
  request_id : Option String := none
deriving DecidableEq, Repr

/-- The Router's `load_balancer_state` dict.  It is created empty and only
`round_robin` ever writes to it (the key `last_index`); nothing in the code
ever stores a `connections` key, so that field starts `none` and stays so. -/
structure LBState where
  last_index : Option Int := none
  connections : Option (List (String × Int)) := none
deriving DecidableEq, Repr

namespace LoadBalancer

/-- `LoadBalancer.round_robin`: pick index `(last_index + 1) % len`, with
`last_index` defaulting to -1 when the state dict has no such key, and store
the chosen index back into the state. -/
def round_robin (services : List ServiceInfo) (state : LBState) :
    Option ServiceInfo × LBState :=
  if services.isEmpty then (none, state)
  else
    let last_index := state.last_index.getD (-1)
    let next_index : Int := (last_index + 1) % (services.length : Int)
    (services[next_index.toNat]?, { state with last_index := some next_index })

/-- `LoadBalancer.least_connections`: scan the candidates in list order,
keeping the first service whose connection count (defaulting to 0 when the
name is absent from the `connections` map, and the whole map defaulting to
empty when the state has no `connections` key) is strictly below the minimum
seen so far; the initial minimum is infinity, modelled by `none`. -/
def least_connections (services : List ServiceInfo) (state : LBState) :
    Option ServiceInfo × LBState :=
  if services.isEmpty then (none, state)
  else
    let connections := state.connections.getD []
    let selected := services.foldl (fun acc service =>
      let conn_count := dictGetD connections service.name 0
      match acc with
      | none => some (service, conn_count)
      | some (_, min_connections) =>
          if conn_count < min_connections then some (service, conn_count)
          else acc) none
    (selected.map Prod.fst, state)

end LoadBalancer

/-- The load-balancing strategy names accepted by `Router.__init__`;
any other string falls back to round-robin, so the enum is exhaustive. -/
inductive Strategy where
  | round_robin
  | random
  | least_connections
deriving DecidableEq, Repr

/-- Dispatch of `self.load_balancer` by the configured strategy.  The
`random.choice` call of the random strategy is modelled with an oracle `rand`
choosing the index uniformly below the length. -/
def selectService (strategy : Strategy) (rand : Nat)
    (services : List ServiceInfo) (state : LBState) :
    Option ServiceInfo × LBState :=
  match strategy with
  | Strategy.round_robin => LoadBalancer.round_robin services state
  | Strategy.random =>
      (if services.isEmpty then none else services[rand % services.length]?,
       state)
  | Strategy.least_connections =>
      LoadBalancer.least_connections services state

/-- `Router` state from router.py: the registry, the load balancer's mutable
state dict, the per-name active-connection counters, and the strategy chosen
at construction. -/
structure Router where
  registry : ServiceRegistry
  load_balancer_state : LBState := {}
  active_connections : List (String × Int) := []
  strategy : Strategy := Strategy.round_robin
deriving Repr

/-- Outcome of the awaited body inside `_forward_request`'s `try` block: the
simulated processing either completes normally or raises. -/
inductive CallOutcome where
  | success
  | exn (msg : String)
deriving DecidableEq, Repr

namespace Router

/-- `Router._forward_request`: increment the active-connection counter for
the service's name, run the (simulated) call, and decrement the counter in
the `finally` block on every exit path.  A raised exception propagates as
`Except.error` to the caller's handler; the `finally` decrement runs first. -/
def forward_request (router : Router) (service : ServiceInfo)
    (request : RouteRequest) (outcome : CallOutcome) :
    Router × Except String RouteResponse :=
  let conns := dictSet router.active_connections service.name
    (dictGetD router.active_connections service.name 0 + 1)
  let result : Except String RouteResponse :=
    match outcome with
    | CallOutcome.success =>
        Except.ok
          { success := true
            data := some ("Request processed by " ++ service.name)
            service_name := some service.name
            request_id := request.request_id }
    | CallOutcome.exn msg => Except.error msg
  let conns2 := dictSet conns service.name
    (dictGetD conns service.name 0 - 1)
  ({ router with active_connections := conns2 }, result)

/-- Body of `Router.route`'s `try` block: direct routing by
`target_service` (failing when the service is absent or not HEALTHY), else
capability-based routing through the configured load balancer, else the
validation failure. -/
def route_core (router : Router) (request : RouteRequest) (rand : Nat)
    (outcome : CallOutcome) : Router × Except String RouteResponse :=
  match request.target_service with
  | some target =>
      match router.registry.get_service target with
      | some service =>
          if service.status = ServiceStatus.healthy then
            router.forward_request service request outcome
          else
            (router, Except.ok
              { success := false
                error := some ("Service " ++ target ++ " not available")
                request_id := request.request_id })
      | none =>
          (router, Except.ok
            { success := false
              error := some ("Service " ++ target ++ " not available")
              request_id := request.request_id })
  | none =>
      match request.capability with
      | some capability =>
          let services :=
            router.registry.get_services_by_capability capability
          if services.isEmpty then
            (router, Except.ok
              { success := false
                error := some
                  ("No services available for capability: " ++ capability)
                request_id := request.request_id })
          else
            let sel := selectService router.strategy rand services
              router.load_balancer_state
            let router2 := { router with load_balancer_state := sel.2 }
            match sel.1 with
            | some service =>
                router2.forward_request service request outcome
            | none =>
                (router2, Except.ok
                  { success := false
                    error := some "No target service or capability specified"
                    request_id := request.request_id })
      | none =>
          (router, Except.ok
            { success := false
              error := some "No target service or capability specified"
              request_id := request.request_id })

/-- `Router.route`: the `try` body above, with the outer `except` handler
converting any exception escaping `_forward_request` into an error
response. -/
def route (router : Router) (request : RouteRequest) (rand : Nat)
    (outcome : CallOutcome) : Router × RouteResponse :=
  match route_core router request rand outcome with
  | (r, Except.ok response) => (r, response)
  | (r, Except.error msg) =>
      (r, { success := false
            error := some msg
            request_id := request.request_id })

end Router

/-- Result of an HTTP endpoint: a 200 body, or an `HTTPException` carrying a
status code and a detail string. -/
inductive EndpointResult (α : Type) where
  | ok (body : α)
  | httpError (status_code : Nat) (detail : String)
deriving DecidableEq, Repr

/-- The JSON body accepted by `POST /register`, with `Option` marking keys
the caller may omit. -/
structure RegisterData where
  name : Option String := none
  host : Option String := none
  port : Option Nat := none
  capabilities : Option (List String) := none
  metadata : Option (List (String × String)) := none
deriving DecidableEq, Repr

/-- 200 body of `POST /register`. -/
structure RegisterBody where
  status : String
  service : String
deriving DecidableEq, Repr

/-- `register_service` endpoint from main.py: building the `ServiceInfo`
raises `KeyError` at the first of `name`, `host`, `port` that is absent
(in that evaluation order), which the handler converts to a 400;
`capabilities` and `metadata` fall back to `[]`/`{}` via `.get`.  On success
the record enters the registry with `last_heartbeat = now` and the default
UNKNOWN status. -/
def register_service (reg : ServiceRegistry) (now : Int)
    (service_data : RegisterData) :
    EndpointResult RegisterBody × ServiceRegistry :=
  match service_data.name with
  | none => (EndpointResult.httpError 400 "Missing required field: name", reg)
  | some n =>
      match service_data.host with
      | none =>
          (EndpointResult.httpError 400 "Missing required field: host", reg)
      | some h =>
          match service_data.port with
          | none =>
              (EndpointResult.httpError 400 "Missing required field: port",
               reg)
          | some p =>
              let service : ServiceInfo :=
                { name := n, host := h, port := p
                  capabilities := service_data.capabilities.getD []
                  status := ServiceStatus.unknown
                  last_heartbeat := now
                  metadata := service_data.metadata.getD [] }
              let (reg2, success) := reg.register service
              if success then
                (EndpointResult.ok { status := "registered", service := n },
                 reg2)
              else
                (EndpointResult.httpError 500 "400: Registration failed",
                 reg2)

/-- The JSON body accepted by `POST /route`. -/
structure RouteData where
  method : Option String := none
  params : Option (List (String × String)) := none
  capability : Option String := none
  target_service : Option String := none
  request_id : Option String := none
deriving DecidableEq, Repr

/-- 200 body of `POST /route`. -/
structure RouteBody where
  success : Bool
  data : Option String
  service : Option String
  request_id : Option String
deriving DecidableEq, Repr

/-- `route_request` endpoint from main.py: a missing `method` key raises
`KeyError`, converted to a 400 by the dedicated handler.  A non-success
route raises `HTTPException(503)` inside the same `try` block, so it is
caught by the handler's own blanket `except Exception` clause and re-raised
as a 500 whose detail is `str(e)` ("503: " followed by the original detail,
Starlette's `HTTPException.__str__` formatting); the 503 never escapes. -/
def route_request (router : Router) (rand : Nat) (outcome : CallOutcome)
    (request_data : RouteData) : EndpointResult RouteBody × Router :=
  match request_data.method with
  | none =>
      (EndpointResult.httpError 400 "Missing required field: method", router)
  | some m =>
      let request : RouteRequest :=
        { method := m
          params := request_data.params.getD []
          capability := request_data.capability
          target_service := request_data.target_service
          request_id := request_data.request_id }
      let (router2, response) := router.route request rand outcome
      if response.success then
        (EndpointResult.ok
          { success := true
            data := response.data
            service := response.service_name
            request_id := response.request_id }, router2)
      else
        (EndpointResult.httpError 500
          ("503: " ++ (response.error.getD "")), router2)

/-! ### Dictionary lemmas -/

theorem dictGet_dictSet_self {α : Type} (d : List (String × α)) (k : String)
    (v : α) : dictGet (dictSet d k v) k = some v := by
  induction d with
  | nil => simp [dictGet, dictSet]
  | cons p rest ih =>
      by_cases h : p.1 = k
      · simp [dictSet, h, dictGet]
      · simpa [dictSet, h, dictGet] using ih

theorem dictGet_dictDel_self {α : Type} (d : List (String × α)) (k : String) :
    dictGet (dictDel d k) k = none := by
  induction d with
  | nil => simp [dictGet, dictDel]
  | cons p rest ih =>
      by_cases h : p.1 = k
      · simpa [dictDel, h] using ih
      · simpa [dictDel, h, dictGet] using ih

theorem dictGet_map_pair {α β : Type} (f : α → β) (d : List (String × α))
    (k : String) :
    dictGet (d.map (fun p => (p.1, f p.2))) k = (dictGet d k).map f := by
  induction d with
  | nil => simp [dictGet]
  | cons p rest ih =>
      by_cases h : p.1 = k
      · simp [dictGet, h]
      · simpa [dictGet, h] using ih

theorem dictGet_map_upd {α : Type} (g : α → α) (d : List (String × α))
    (k k0 : String) :
    dictGet (d.map (fun p => if p.1 = k0 then (p.1, g p.2) else p)) k =
      if k = k0 then (dictGet d k).map g else dictGet d k := by
  induction d with
  | nil => by_cases h : k = k0 <;> simp [dictGet, h]
  | cons p rest ih =>
      obtain ⟨a, v⟩ := p
      by_cases h0 : a = k0
      · by_cases hk : a = k
        · simp [dictGet, h0, hk, (h0 ▸ hk : k0 = k).symm]
        · have h1 : ¬ k0 = k := fun hh => hk (h0.trans hh)
          have h2 : ¬ k = k0 := fun hh => h1 hh.symm
          simpa [dictGet, h0, hk, h1, h2] using ih
      · by_cases hk : a = k
        · have hne : ¬ k = k0 := fun hh => h0 (hk.trans hh)
          simp [dictGet, h0, hk, hne]
        · simpa [dictGet, h0, hk] using ih

theorem dictDel_map_upd {α : Type} (g : α → α) (d : List (String × α))
    (k : String) :
    dictDel (d.map (fun p => if p.1 = k then (p.1, g p.2) else p)) k =
      dictDel d k := by
  induction d with
  | nil => simp [dictDel]
  | cons p rest ih =>
      obtain ⟨a, v⟩ := p
      by_cases h : a = k
      · simpa [dictDel, h] using ih
      · simpa [dictDel, h, List.filter] using ih

/-! ### Concrete fixtures used by witnesses and counterexamples -/

/-- HTTP status code of an endpoint result. -/
def statusOf {α : Type} : EndpointResult α → Nat
  | EndpointResult.ok _ => 200
  | EndpointResult.httpError c _ => c

/-- A healthy service named A advertising capability `cap`. -/
def svcA : ServiceInfo :=
  { name := "A", host := "hostA", port := 1, capabilities := ["cap"],
    status := ServiceStatus.healthy, last_heartbeat := 0 }

/-- A healthy service named B advertising capability `cap`. -/
def svcB : ServiceInfo :=
  { name := "B", host := "hostB", port := 2, capabilities := ["cap"],
    status := ServiceStatus.healthy, last_heartbeat := 0 }

/-- Registry holding A and B. -/
def regAB : ServiceRegistry := { services := [("A", svcA), ("B", svcB)] }

/-- A least-connections router whose forward step has left active counts
A:2, B:0 (the spec's example counts). -/
def lcRouter : Router :=
  { registry := regAB, active_connections := [("A", 2), ("B", 0)],
    strategy := Strategy.least_connections }

/-- A round-robin router over the stable candidate set {A, B}. -/
def rrRouter : Router := { registry := regAB }

/-- A request routed by capability `cap`. -/
def capRequest : RouteRequest := { method := "m", capability := some "cap" }

/-- One route call against the simulated forward. -/
def routeStep (r : Router) : Router × RouteResponse :=
  r.route capRequest 0 CallOutcome.success

/-! ### Claim theorems -/

/-- C4: each health-monitor cycle computes `elapsed = now - lastHeartbeat`
for every directory entry and reclassifies it: UNHEALTHY when
`elapsed > 2 * heartbeatInterval`, UNKNOWN when
`heartbeatInterval < elapsed ≤ 2 * heartbeatInterval`, unchanged when
`elapsed ≤ heartbeatInterval`; with interval 30, elapsed 31 gives UNKNOWN
and elapsed 61 gives UNHEALTHY. -/
theorem C4_health_classification (interval elapsed : Int) (st : ServiceStatus)
    (reg : ServiceRegistry) (now : Int) (name : String) (svc : ServiceInfo)
    (hpos : 0 < interval) (hget : reg.get_service name = some svc) :
    (elapsed > 2 * interval →
      ServiceRegistry.classifyStatus interval elapsed st
        = ServiceStatus.unhealthy) ∧
    (interval < elapsed ∧ elapsed ≤ 2 * interval →
      ServiceRegistry.classifyStatus interval elapsed st
        = ServiceStatus.unknown) ∧
    (elapsed ≤ interval →
      ServiceRegistry.classifyStatus interval elapsed st = st) ∧
    ((reg.monitor_health_cycle now).get_service name =
      some { svc with
               status := ServiceRegistry.classifyStatus reg.heartbeat_interval
                 (now - svc.last_heartbeat) svc.status }) ∧
    ServiceRegistry.classifyStatus 30 31 st = ServiceStatus.unknown ∧
    ServiceRegistry.classifyStatus 30 61 st = ServiceStatus.unhealthy := by
  refine ⟨?_, ?_, ?_, ?_, ?_, ?_⟩
  · intro h
    have h2 : elapsed > interval * 2 := by omega
    simp [ServiceRegistry.classifyStatus, h2]
  · rintro ⟨h1, h2⟩
    have hno : ¬ elapsed > interval * 2 := by omega
    simp [ServiceRegistry.classifyStatus, hno, h1]
  · intro h
    have hno : ¬ elapsed > interval * 2 := by omega
    have hno2 : ¬ elapsed > interval := by omega
    simp [ServiceRegistry.classifyStatus, hno, hno2]
  · have hmap := dictGet_map_pair (fun v : ServiceInfo => { v with status := ServiceRegistry.classifyStatus reg.heartbeat_interval (now - v.last_heartbeat) v.status }) reg.services name
    simp only [ServiceRegistry.monitor_health_cycle,
      ServiceRegistry.get_service] at hget ⊢
    rw [hmap, hget]
    rfl
  · norm_num [ServiceRegistry.classifyStatus]
  · norm_num [ServiceRegistry.classifyStatus]

/-- C4 witness: instantiation at interval 30, a registry holding A, and a
monitor cycle at time 31 after A's heartbeat. -/
theorem C4_health_classification_witness :
    (0 : Int) < 30 ∧
    regAB.get_service "A" = some svcA ∧
    ((31 : Int) > 2 * 30 →
      ServiceRegistry.classifyStatus 30 31 ServiceStatus.healthy
        = ServiceStatus.unhealthy) ∧
    ((30 : Int) < 31 ∧ (31 : Int) ≤ 2 * 30 →
      ServiceRegistry.classifyStatus 30 31 ServiceStatus.healthy
        = ServiceStatus.unknown) ∧
    ((31 : Int) ≤ 30 →
      ServiceRegistry.classifyStatus 30 31 ServiceStatus.healthy
        = ServiceStatus.healthy) ∧
    ((regAB.monitor_health_cycle 31).get_service "A" =
      some { svcA with status := ServiceRegistry.classifyStatus regAB.heartbeat_interval (31 - svcA.last_heartbeat) svcA.status }) ∧
    ServiceRegistry.classifyStatus 30 31 ServiceStatus.healthy
      = ServiceStatus.unknown ∧
    ServiceRegistry.classifyStatus 30 61 ServiceStatus.healthy
      = ServiceStatus.unhealthy :=
  ⟨by decide, by decide,
   (C4_health_classification 30 31 ServiceStatus.healthy regAB 31 "A" svcA
     (by decide) (by decide)).1,
   (C4_health_classification 30 31 ServiceStatus.healthy regAB 31 "A" svcA
     (by decide) (by decide)).2.1,
   (C4_health_classification 30 31 ServiceStatus.healthy regAB 31 "A" svcA
     (by decide) (by decide)).2.2.1,
   (C4_health_classification 30 31 ServiceStatus.healthy regAB 31 "A" svcA
     (by decide) (by decide)).2.2.2.1,
   (C4_health_classification 30 31 ServiceStatus.healthy regAB 31 "A" svcA
     (by decide) (by decide)).2.2.2.2.1,
   (C4_health_classification 30 31 ServiceStatus.healthy regAB 31 "A" svcA
     (by decide) (by decide)).2.2.2.2.2⟩

/-- C8: registering the same name twice fully replaces the prior record;
`get_service` afterwards returns exactly the second record. -/
theorem C8_register_overwrites (reg : ServiceRegistry) (r1 r2 : ServiceInfo)
    (h : r1.name = r2.name) :
    ((reg.register r1).1.register r2).1.get_service r1.name = some r2 := by
  simp [ServiceRegistry.register, ServiceRegistry.get_service, h,
    dictGet_dictSet_self]

/-- A re-registration of A with different host, port, capabilities and
metadata. -/
def svcA2 : ServiceInfo :=
  { svcA with
      host := "other"
      port := 9
      capabilities := ["cap2"]
      metadata := [("k", "v")] }

/-- C8 witness: two records sharing the name A with different host, port,
capabilities and metadata; the lookup returns the second record whole. -/
theorem C8_register_overwrites_witness :
    svcA.name = svcA2.name ∧
    ((ServiceRegistry.register {} svcA).1.register svcA2).1.get_service
      svcA.name = some svcA2 :=
  ⟨rfl, C8_register_overwrites {} svcA svcA2 rfl⟩

/-- C10: `update_heartbeat` and `deregister` on the same name are each a
single atomic step (their bodies contain no await point), and in either
interleaving order the resulting directory equals the one produced by
`deregister` alone, in which the name resolves to nothing — no stale entry
survives and the deregistration's effect is the one observably final. -/
theorem C10_heartbeat_deregister_interleavings (reg : ServiceRegistry)
    (name : String) (now : Int) :
    (((reg.update_heartbeat name now).1.deregister name).1.services =
      ((reg.deregister name).1).services) ∧
    ((((reg.deregister name).1.update_heartbeat name now).1).services =
      ((reg.deregister name).1).services) ∧
    ((reg.deregister name).1.get_service name = none) := by
  by_cases hp : (dictGet reg.services name).isSome = true
  · refine ⟨?_, ?_, ?_⟩
    · have hupd := dictGet_map_upd (fun v : ServiceInfo => { v with last_heartbeat := now, status := ServiceStatus.healthy }) reg.services name name
      simp only [if_pos rfl] at hupd
      have hsome : (dictGet ((reg.update_heartbeat name now).1).services
          name).isSome = true := by
        simp only [ServiceRegistry.update_heartbeat, hp, if_true]
        rw [hupd]
        simpa using hp
      simp only [ServiceRegistry.update_heartbeat, hp, if_true] at hsome ⊢
      simp only [ServiceRegistry.deregister, hsome, hp, if_true]
      exact dictDel_map_upd (fun v : ServiceInfo => { v with last_heartbeat := now, status := ServiceStatus.healthy }) reg.services name
    · have hdel : dictGet ((reg.deregister name).1).services name = none := by
        simp only [ServiceRegistry.deregister, hp, if_true]
        exact dictGet_dictDel_self reg.services name
      simp only [ServiceRegistry.update_heartbeat, hdel, Option.isSome_none,
        Bool.false_eq_true, if_false]
    · simp only [ServiceRegistry.deregister, hp, if_true,
        ServiceRegistry.get_service]
      exact dictGet_dictDel_self reg.services name
  · have hnone : dictGet reg.services name = none := by
      cases hd : dictGet reg.services name with
      | none => rfl
      | some v => rw [hd] at hp; simp at hp
    refine ⟨?_, ?_, ?_⟩ <;>
      simp [ServiceRegistry.update_heartbeat, ServiceRegistry.deregister,
        ServiceRegistry.get_service, hnone]

/-- A complete registration body for service A. -/
def regDataA : RegisterData :=
  { name := some "A", host := some "hostA", port := some 1 }

/-- C3: the register operation (HTTP boundary included) stores the record
under its name with `lastHeartbeat = now` and reports success whenever
`name`, `host` and `port` are all present, and returns the 400 validation
failure exactly when one of them is missing. -/
theorem C3_register_validation (reg : ServiceRegistry) (now : Int)
    (d : RegisterData) :
    (statusOf (register_service reg now d).1 = 400 ↔
      d.name = none ∨ d.host = none ∨ d.port = none) ∧
    (∀ n h p, d.name = some n → d.host = some h → d.port = some p →
      (register_service reg now d).1 =
        EndpointResult.ok { status := "registered", service := n } ∧
      (register_service reg now d).2.get_service n =
        some { name := n, host := h, port := p
               capabilities := d.capabilities.getD []
               status := ServiceStatus.unknown
               last_heartbeat := now
               metadata := d.metadata.getD [] }) := by
  constructor
  · cases hn : d.name with
    | none => simp [register_service, hn, statusOf]
    | some n =>
        cases hh : d.host with
        | none => simp [register_service, hn, hh, statusOf]
        | some h =>
            cases hp : d.port with
            | none => simp [register_service, hn, hh, hp, statusOf]
            | some p =>
                simp [register_service, hn, hh, hp, statusOf,
                  ServiceRegistry.register]
  · intro n h p hn hh hp
    constructor
    · simp [register_service, hn, hh, hp, ServiceRegistry.register]
    · simp [register_service, hn, hh, hp, ServiceRegistry.register,
        ServiceRegistry.get_service, dictGet_dictSet_self]

/-- C3 witness: a full registration body for A succeeds and stores the
record at heartbeat time 5; the iff rules out a 400 there. -/
theorem C3_register_validation_witness :
    (statusOf (register_service {} 5 regDataA).1 = 400 ↔
      regDataA.name = none ∨ regDataA.host = none ∨ regDataA.port = none) ∧
    ((register_service {} 5 regDataA).1 =
      EndpointResult.ok { status := "registered", service := "A" } ∧
     (register_service {} 5 regDataA).2.get_service "A" =
      some { name := "A", host := "hostA", port := 1
             capabilities := ([] : List String)
             status := ServiceStatus.unknown
             last_heartbeat := 5
             metadata := ([] : List (String × String)) }) :=
  ⟨(C3_register_validation {} 5 regDataA).1,
   by
     have h := (C3_register_validation {} 5 regDataA).2 "A" "hostA" 1
       rfl rfl rfl
     exact ⟨h.1, by simpa using h.2⟩⟩

/-- C5: immediately after a valid registration and before any heartbeat,
the stored record's status is UNKNOWN; the first `update_heartbeat` call
reports found and flips the status to HEALTHY (stamping the new time). -/
theorem C5_unknown_until_first_heartbeat (reg : ServiceRegistry)
    (now now2 : Int) (d : RegisterData) (n h : String) (p : Nat)
    (hn : d.name = some n) (hh : d.host = some h) (hp : d.port = some p) :
    (((register_service reg now d).2.get_service n).map ServiceInfo.status =
      some ServiceStatus.unknown) ∧
    (((register_service reg now d).2.update_heartbeat n now2).2 = true) ∧
    (((((register_service reg now d).2.update_heartbeat n now2).1).get_service
        n).map ServiceInfo.status = some ServiceStatus.healthy) := by
  have hreg : (register_service reg now d).2.get_service n =
      some { name := n, host := h, port := p
             capabilities := d.capabilities.getD []
             status := ServiceStatus.unknown
             last_heartbeat := now
             metadata := d.metadata.getD [] } := by
    simp [register_service, hn, hh, hp, ServiceRegistry.register,
      ServiceRegistry.get_service, dictGet_dictSet_self]
  have hsome : (dictGet ((register_service reg now d).2).services n).isSome
      = true := by
    simp only [ServiceRegistry.get_service] at hreg
    rw [hreg]
    rfl
  refine ⟨by rw [hreg]; rfl, ?_, ?_⟩
  · simp [ServiceRegistry.update_heartbeat, hsome]
  · have hupd := dictGet_map_upd (fun v : ServiceInfo => { v with last_heartbeat := now2, status := ServiceStatus.healthy }) ((register_service reg now d).2).services n n
    simp only [if_pos rfl] at hupd
    simp only [ServiceRegistry.update_heartbeat, hsome, if_true,
      ServiceRegistry.get_service] at hreg ⊢
    rw [hupd, hreg]
    rfl

/-- C5 witness: registering A at time 5 stores it UNKNOWN; the heartbeat at
time 6 reports found and makes it HEALTHY. -/
theorem C5_unknown_until_first_heartbeat_witness :
    regDataA.name = some "A" ∧
    ((((register_service {} 5 regDataA).2.get_service "A").map
        ServiceInfo.status = some ServiceStatus.unknown) ∧
     (((register_service {} 5 regDataA).2.update_heartbeat "A" 6).2
        = true) ∧
     (((((register_service {} 5 regDataA).2.update_heartbeat "A"
        6).1).get_service "A").map ServiceInfo.status =
        some ServiceStatus.healthy)) :=
  ⟨rfl, C5_unknown_until_first_heartbeat {} 5 6 regDataA
    "A" "hostA" 1 rfl rfl rfl⟩

/-- A healthy service advertising capability `c1`. -/
def svcX : ServiceInfo :=
  { name := "x1", host := "hx", port := 5, capabilities := ["c1"],
    status := ServiceStatus.healthy, last_heartbeat := 0 }

/-- A healthy service advertising capability `c2`. -/
def svcY1 : ServiceInfo :=
  { name := "y1", host := "hy", port := 6, capabilities := ["c2"],
    status := ServiceStatus.healthy, last_heartbeat := 0 }

/-- A second healthy service advertising capability `c2`. -/
def svcY2 : ServiceInfo :=
  { name := "y2", host := "hy", port := 7, capabilities := ["c2"],
    status := ServiceStatus.healthy, last_heartbeat := 0 }

/-- A round-robin router over one `c1` service and two `c2` services. -/
def crossRouter : Router :=
  { registry := { services := [("x1", svcX), ("y1", svcY1), ("y2", svcY2)] } }

/-- A request routed by capability `c1`. -/
def c1Request : RouteRequest := { method := "m", capability := some "c1" }

/-- A request routed by capability `c2`. -/
def c2Request : RouteRequest := { method := "m", capability := some "c2" }

/-- The strategy dispatch never touches the `connections` key of the
selection state: round-robin rewrites only `last_index`, the other two
leave the state untouched. -/
theorem selectService_connections (s : Strategy) (r : Nat)
    (l : List ServiceInfo) (st : LBState) :
    (selectService s r l st).2.connections = st.connections := by
  cases s with
  | round_robin =>
      simp only [selectService, LoadBalancer.round_robin]
      split <;> rfl
  | random => rfl
  | least_connections =>
      simp only [selectService, LoadBalancer.least_connections]
      split <;> rfl

/-- C6: round-robin over a non-empty candidate list returns the element at
index `(lastIndex+1) mod len` (defaulting the stored index to -1 when the
state has none), stores that index back, always yields some service, and
over the stable 2-member set {A, B} four consecutive capability routes
alternate A, B, A, B. -/
theorem C6_round_robin_selection (services : List ServiceInfo)
    (state : LBState) (hne : services ≠ []) :
    (LoadBalancer.round_robin services state =
      (services[((state.last_index.getD (-1) + 1) % (services.length : Int)).toNat]?,
       { state with last_index := some ((state.last_index.getD (-1) + 1) % (services.length : Int)) })) ∧
    ((LoadBalancer.round_robin services state).1.isSome = true) ∧
    ((routeStep rrRouter).2.service_name = some "A" ∧
     (routeStep (routeStep rrRouter).1).2.service_name = some "B" ∧
     (routeStep (routeStep (routeStep rrRouter).1).1).2.service_name
       = some "A" ∧
     (routeStep (routeStep (routeStep (routeStep
       rrRouter).1).1).1).2.service_name = some "B") := by
  have hempty : services.isEmpty = false := by
    simp [List.isEmpty_iff, hne]
  have heq : LoadBalancer.round_robin services state =
      (services[((state.last_index.getD (-1) + 1) % (services.length : Int)).toNat]?,
       { state with last_index := some ((state.last_index.getD (-1) + 1) % (services.length : Int)) }) := by
    simp [LoadBalancer.round_robin, hempty]
  refine ⟨heq, ?_, by decide, by decide, by decide, by decide⟩
  have hlen : (0 : Int) < (services.length : Int) := by
    have := List.length_pos.mpr hne
    exact_mod_cast this
  have h0 : 0 ≤ (state.last_index.getD (-1) + 1) % (services.length : Int) :=
    Int.emod_nonneg _ (by omega)
  have h1 : (state.last_index.getD (-1) + 1) % (services.length : Int) <
      (services.length : Int) := Int.emod_lt_of_pos _ hlen
  have hlt : ((state.last_index.getD (-1) + 1) %
      (services.length : Int)).toNat < services.length := by omega
  rw [heq]
  simp [List.getElem?_eq_getElem hlt]

/-- C6 witness: the candidate list [A, B] is non-empty and the first pick
from the fresh state yields a service. -/
theorem C6_round_robin_selection_witness :
    ([svcA, svcB] : List ServiceInfo) ≠ [] ∧
    ((LoadBalancer.round_robin [svcA, svcB] {}).1.isSome = true) :=
  ⟨by decide, (C6_round_robin_selection [svcA, svcB] {} (by decide)).2.1⟩

/-- C7: the forward step increments the active-connection counter for the
chosen service before the call (the in-flight count is one above the prior
count) and decrements it on every exit path, so afterwards the counter
equals its value before the call, whether the call succeeded or raised. -/
theorem C7_forward_releases_counter (router : Router)
    (service : ServiceInfo) (request : RouteRequest)
    (outcome : CallOutcome) :
    (dictGetD ((router.forward_request service request
        outcome).1).active_connections service.name 0 =
      dictGetD router.active_connections service.name 0) ∧
    (dictGetD (dictSet router.active_connections service.name
        (dictGetD router.active_connections service.name 0 + 1))
        service.name 0 =
      dictGetD router.active_connections service.name 0 + 1) := by
  constructor
  · simp [Router.forward_request, dictGetD, dictGet_dictSet_self]
  · simp [dictGetD, dictGet_dictSet_self]

/-- C9 (implicit): the round-robin position is one shared counter, not one
per candidate set — the state written by a selection over list `l1` is the
state a later selection over any other list `l2` reads, so the second pick
sits at `(i1 + 1) mod len(l2)` where `i1` is the index the first pick
stored; concretely, routing once for capability `c1` makes the next `c2`
route start at y2, skipping y1. -/
theorem C9_shared_round_robin_index (state : LBState)
    (l1 l2 : List ServiceInfo) (h1 : l1 ≠ []) (h2 : l2 ≠ []) :
    ((LoadBalancer.round_robin l1 state).2.last_index =
      some ((state.last_index.getD (-1) + 1) % (l1.length : Int))) ∧
    ((LoadBalancer.round_robin l2 (LoadBalancer.round_robin l1 state).2).1 =
      l2[((((state.last_index.getD (-1) + 1) % (l1.length : Int)) + 1) % (l2.length : Int)).toNat]?) ∧
    (((crossRouter.route c1Request 0 CallOutcome.success).1.route
        c2Request 0 CallOutcome.success).2.service_name = some "y2") := by
  have he1 : l1.isEmpty = false := by simp [List.isEmpty_iff, h1]
  have he2 : l2.isEmpty = false := by simp [List.isEmpty_iff, h2]
  refine ⟨?_, ?_, by decide⟩
  · simp [LoadBalancer.round_robin, he1]
  · simp [LoadBalancer.round_robin, he1, he2]

/-- C9 witness: instantiation at the fresh state with `l1 = [svcX]` and
`l2 = [svcY1, svcY2]`. -/
theorem C9_shared_round_robin_index_witness :
    ([svcX] : List ServiceInfo) ≠ [] ∧
    ([svcY1, svcY2] : List ServiceInfo) ≠ [] ∧
    ((LoadBalancer.round_robin [svcY1, svcY2]
        (LoadBalancer.round_robin [svcX] {}).2).1 =
      [svcY1, svcY2][(((({} : LBState).last_index.getD (-1) + 1) %
        (([svcX] : List ServiceInfo).length : Int) + 1) %
        (([svcY1, svcY2] : List ServiceInfo).length : Int)).toNat]?) :=
  ⟨by decide, by decide,
   (C9_shared_round_robin_index {} [svcX] [svcY1, svcY2]
     (by decide) (by decide)).2.1⟩

/-- C2 counterexample: for the body `{method: "m"}` (neither targetService
nor capability), the `POST /route` endpoint returns HTTP 500, not 400: the
`HTTPException(503)` raised for the failed route inside the handler's `try`
block is caught by its own blanket `except Exception` clause and re-raised
as a 500. -/
theorem C2_route_endpoint_counterexample :
    (route_request { registry := {} } 0 CallOutcome.success
        { method := some "m" }).1 =
      EndpointResult.httpError 500
        "503: No target service or capability specified" := by
  decide

/-- C2 (amended): with neither targetService nor capability set, `route`
deterministically returns the failure response carrying the ValidationError
message "No target service or capability specified", and the `POST /route`
endpoint (for a body with `method` present and both routing fields absent)
returns HTTP status 500 wrapping that message. -/
theorem C2_route_missing_criteria (router : Router) (request : RouteRequest)
    (rand : Nat) (outcome : CallOutcome)
    (ht : request.target_service = none) (hc : request.capability = none) :
    ((router.route request rand outcome).2 =
      { success := false
        error := some "No target service or capability specified"
        request_id := request.request_id }) ∧
    (∀ d : RouteData, d.method.isSome = true → d.target_service = none →
      d.capability = none →
      (route_request router rand outcome d).1 =
        EndpointResult.httpError 500
          "503: No target service or capability specified") := by
  have hroute : ∀ (req : RouteRequest), req.target_service = none →
      req.capability = none →
      router.route req rand outcome =
        (router,
         { success := false
           error := some "No target service or capability specified"
           request_id := req.request_id }) := by
    intro req hts hcs
    simp [Router.route, Router.route_core, hts, hcs]
  refine ⟨?_, ?_⟩
  · rw [hroute request ht hc]
  · intro d hm hts hcs
    cases hmm : d.method with
    | none => rw [hmm] at hm; simp at hm
    | some m =>
        simp only [route_request, hmm]
        rw [hroute { method := m
                     params := d.params.getD []
                     capability := d.capability
                     target_service := d.target_service
                     request_id := d.request_id } hts hcs]
        rfl

/-- C2 witness: the concrete router with an empty registry and the body
`{method: "m"}`. -/
theorem C2_route_missing_criteria_witness :
    ({ method := "m" } : RouteRequest).target_service = none ∧
    ({ method := "m" } : RouteRequest).capability = none ∧
    ((({ registry := {} } : Router).route { method := "m" } 0
        CallOutcome.success).2 =
      { success := false
        error := some "No target service or capability specified"
        request_id := none }) ∧
    ((route_request { registry := {} } 0 CallOutcome.success
        { method := some "m", target_service := none,
          capability := none }).1 =
      EndpointResult.httpError 500
        "503: No target service or capability specified") :=
  ⟨rfl, rfl,
   (C2_route_missing_criteria { registry := {} } { method := "m" } 0
     CallOutcome.success rfl rfl).1,
   (C2_route_missing_criteria { registry := {} } { method := "m" } 0
     CallOutcome.success rfl rfl).2
     { method := some "m", target_service := none, capability := none }
     rfl rfl rfl⟩

/-- The `try` body of `route` never writes the `connections` key of the
load balancer state: selection preserves it and the forward step touches
only `active_connections`. -/
theorem route_core_connections (router : Router) (request : RouteRequest)
    (rand : Nat) (outcome : CallOutcome) :
    ((Router.route_core router request rand
        outcome).1).load_balancer_state.connections =
      router.load_balancer_state.connections := by
  cases hts : request.target_service with
  | some target =>
      simp only [Router.route_core, hts]
      cases hsvc : router.registry.get_service target with
      | some service =>
          by_cases hh : service.status = ServiceStatus.healthy
          · simp [hsvc, hh, Router.forward_request]
          · simp [hsvc, hh]
      | none => simp [hsvc]
  | none =>
      cases hc : request.capability with
      | some capability =>
          simp only [Router.route_core, hts, hc]
          by_cases he :
            (router.registry.get_services_by_capability capability).isEmpty
          · simp [he]
          · simp only [he, Bool.false_eq_true, if_false]
            cases hp : (selectService router.strategy rand
                (router.registry.get_services_by_capability capability)
                router.load_balancer_state).1 with
            | some service =>
                simp [hp, Router.forward_request, selectService_connections]
            | none => simp [hp, selectService_connections]
      | none => simp [Router.route_core, hts, hc]

/-- C1: against the claim, the least-connections selection state is NOT fed
by the forward step's counters.  With forward-step counts A:2, B:0 the
router still picks A, because `least_connections` reads the `connections`
key of `load_balancer_state`, which no code path ever writes (conjuncts 2
and 3): the forward step maintains the separate `active_connections` dict.
Conjunct 4 shows the strategy itself would pick B were the counts in its
state, matching the docstring "Select service with least active
connections". -/
theorem C1_least_connections_not_wired :
    ((routeStep lcRouter).2.service_name = some "A") ∧
    (∀ (router : Router) (request : RouteRequest) (rand : Nat)
        (outcome : CallOutcome),
      ((router.route request rand
          outcome).1).load_balancer_state.connections =
        router.load_balancer_state.connections) ∧
    (∀ (router : Router) (service : ServiceInfo) (request : RouteRequest)
        (outcome : CallOutcome),
      ((router.forward_request service request
          outcome).1).load_balancer_state = router.load_balancer_state) ∧
    ((LoadBalancer.least_connections [svcA, svcB]
        { connections := some [("A", 2), ("B", 0)] }).1.map
        ServiceInfo.name = some "B") := by
  refine ⟨by decide, ?_, ?_, by decide⟩
  · intro router request rand outcome
    have h := route_core_connections router request rand outcome
    rcases hrc : Router.route_core router request rand outcome with ⟨r, e⟩
    rw [hrc] at h
    cases e <;> simpa [Router.route, hrc] using h
  · intro router service request outcome
    rfl
